import Mathlib

/-
Verification of the hypervideo stacked-alpha compositor.

The definitions below are shallow embeddings of the code in
packages/react/src (WebGL player) and packages/expo (Metal player and its
JS wrapper).  GPU channel values are modelled as rationals: 8-bit channels
are normalized byte values v/255, which rationals represent exactly.
-/

namespace Hypervideo

/-- An RGBA sample with rational channel values (normalized to [0,1] for
8-bit data). -/
structure Rgba where
  r : ℚ
  g : ℚ
  b : ℚ
  a : ℚ
deriving DecidableEq

/-- A texture is modelled as a sampling function from normalized texture
coordinates (x, y) to an RGBA sample.  Both fragment shaders only perform
coordinate arithmetic and combine the samples the GPU sampler returns, so
the sampler itself is left abstract. -/
def Texture : Type := ℚ → ℚ → Rgba

/-- Embedding of the WebGL fragment shader body in
packages/react/src/shaders.ts (fragmentShaderSource): colorCoord is
(x, y*0.5), alphaCoord is (x, 0.5 + y*0.5), alpha is the red channel of
the bottom sample, and gl_FragColor is vec4(color.rgb, alpha). -/
def webglFragmentShader (tex : Texture) (x y : ℚ) : Rgba :=
  let colorCoord : ℚ × ℚ := (x, y * (1/2))
  let alphaCoord : ℚ × ℚ := (x, 1/2 + y * (1/2))
  let color := tex colorCoord.1 colorCoord.2
  let alpha := (tex alphaCoord.1 alphaCoord.2).r
  ⟨color.r, color.g, color.b, alpha⟩

/-- Embedding of the Metal fragment shader body in
packages/expo/ios/StackedAlphaVideoView.swift (setupRenderPipeline):
rgbCoord is (x, y*0.5), alphaCoord is (x, 0.5 + y*0.5), alpha is the red
channel of the bottom sample, and the return value is the premultiplied
float4(rgb.rgb * alpha, alpha). -/
def metalFragmentShader (tex : Texture) (x y : ℚ) : Rgba :=
  let rgbCoord : ℚ × ℚ := (x, y * (1/2))
  let alphaCoord : ℚ × ℚ := (x, 1/2 + y * (1/2))
  let rgb := tex rgbCoord.1 rgbCoord.2
  let alpha := (tex alphaCoord.1 alphaCoord.2).r
  ⟨rgb.r * alpha, rgb.g * alpha, rgb.b * alpha, alpha⟩

/-- The shader output the spec prescribes.  This definition follows the
words of the spec (sample color in the top half, alpha in the bottom half,
output premultiplied color), for comparison against the two shader
embeddings above. -/
def specShaderOutput (tex : Texture) (x y : ℚ) : Rgba :=
  let color := tex x (y * (1/2))
  let alpha := (tex x (1/2 + y * (1/2))).r
  ⟨color.r * alpha, color.g * alpha, color.b * alpha, alpha⟩

/-- One blending step with factors (SRC_ALPHA, ONE_MINUS_SRC_ALPHA) on all
four channels, as configured by gl.blendFunc in initWebGL of
packages/react/src/StackedAlphaVideo.tsx. -/
def webglBlend (src dst : Rgba) : Rgba :=
  ⟨src.r * src.a + dst.r * (1 - src.a),
   src.g * src.a + dst.g * (1 - src.a),
   src.b * src.a + dst.b * (1 - src.a),
   src.a * src.a + dst.a * (1 - src.a)⟩

/-- One blending step with source factor ONE and destination factor
ONE_MINUS_SRC_ALPHA on all four channels, as configured on the Metal
pipeline descriptor in createPipeline of StackedAlphaVideoView.swift. -/
def metalBlend (src dst : Rgba) : Rgba :=
  ⟨src.r + dst.r * (1 - src.a),
   src.g + dst.g * (1 - src.a),
   src.b + dst.b * (1 - src.a),
   src.a + dst.a * (1 - src.a)⟩

/-- The fully transparent clear color (0,0,0,0) both players clear to. -/
def clearColor : Rgba := ⟨0, 0, 0, 0⟩

/-- A synthetic stacked-alpha frame: the top half of the texture holds the
solid color (r,g,b) and the bottom half holds the solid gray value a, with
8-bit byte values normalized to [0,1]. -/
def stackedFrame (r g b a : ℕ) : Texture := fun _ y =>
  if y < 1/2 then ⟨(r : ℚ)/255, (g : ℚ)/255, (b : ℚ)/255, 1⟩
  else ⟨(a : ℚ)/255, (a : ℚ)/255, (a : ℚ)/255, 1⟩

/-- Per-session texture upload state of the web player: whether a full
texImage2D allocation has run at least once, and the frame dimensions
recorded at the last upload (the textureInitializedRef and
lastTextureSizeRef refs in packages/react/src/StackedAlphaVideo.tsx). -/
structure RenderState where
  textureInitialized : Bool
  lastTextureSize : Option (Nat × Nat)
deriving DecidableEq

/-- What one renderFrame tick did with the texture. -/
inductive UploadKind
  | texImage2D
  | texSubImage2D
  | skipped
deriving DecidableEq

/-- The allocation test of renderFrame: no texture initialized yet, no
recorded size, or a width or height differing from the recorded size. -/
def needsFullUpload (s : RenderState) (w h : Nat) : Bool :=
  !s.textureInitialized ||
    match s.lastTextureSize with
    | none => true
    | some (lw, lh) => lw != w || lh != h

/-- Embedding of the renderFrame callback in
packages/react/src/StackedAlphaVideo.tsx: the tick is skipped when the GL
context is lost, the canvas is not visible, or the video has not reached
HAVE_CURRENT_DATA (readyState < 2).  Otherwise the frame of dimensions
(w, h) is uploaded: a full texImage2D allocation recording the new
dimensions when needsFullUpload holds, an in-place texSubImage2D update
leaving the state unchanged otherwise. -/
def renderFrame (contextLost isVisible : Bool) (readyState w h : Nat)
    (s : RenderState) : UploadKind × RenderState :=
  if contextLost || !isVisible then (.skipped, s)
  else if readyState < 2 then (.skipped, s)
  else if needsFullUpload s w h then (.texImage2D, ⟨true, some (w, h)⟩)
  else (.texSubImage2D, s)

/-- The web session state touched by the src effect of
StackedAlphaVideo.tsx: the source currently assigned to the video element,
a count of the decoder loads triggered by assignments to video.src, and
the texture upload state of the session. -/
structure WebSession where
  videoSrc : String
  loadCount : Nat
  texState : RenderState
deriving DecidableEq

/-- Embedding of the src effect in packages/react/src/StackedAlphaVideo.tsx:
video.src is assigned only when it differs from the src prop, and the
assignment itself triggers a new decoder load.  Nothing else is touched;
in particular the texture upload state is left as it is. -/
def srcEffect (s : WebSession) (src : String) : WebSession :=
  if s.videoSrc ≠ src then
    { s with videoSrc := src, loadCount := s.loadCount + 1 }
  else s

/-- The native iOS session state touched by the setSourceUri prop setter
in StackedAlphaVideoView.swift: the stored source URI and a count of
setupVideo invocations, each of which rebuilds the player and decoder. -/
structure IosSession where
  sourceUri : String
  setupCount : Nat
deriving DecidableEq

/-- Embedding of setSourceUri in StackedAlphaVideoView.swift: a guard
returns early when the incoming URI equals the stored one; otherwise the
URI is stored and, when it is nonempty, setupVideo runs. -/
def setSourceUri (s : IosSession) (uri : String) : IosSession :=
  if uri = s.sourceUri then s
  else
    let s1 : IosSession := { s with sourceUri := uri }
    if uri ≠ "" then { s1 with setupCount := s1.setupCount + 1 } else s1

/-- A GL context as the shader cache sees it: a stable identity (WeakMap
keys are context object identities) plus the deterministic outcomes and
handles of the resource-creation calls getOrCreateResources makes on
it. -/
structure GLContext where
  id : Nat
  createVertexShaderOk : Bool
  vertexCompileOk : Bool
  createFragmentShaderOk : Bool
  fragmentCompileOk : Bool
  createProgramOk : Bool
  linkOk : Bool
  createPositionBufferOk : Bool
  createTexCoordBufferOk : Bool
  programHandle : Nat
  positionBufferHandle : Nat
  texCoordBufferHandle : Nat
  positionLocation : Int
  texCoordLocation : Int
deriving DecidableEq

/-- The record getOrCreateResources caches per context: the CachedResources
interface of packages/react/src/shaderCache.ts. -/
structure CachedResources where
  program : Nat
  positionBuffer : Nat
  texCoordBuffer : Nat
  positionLocation : Int
  texCoordLocation : Int
deriving DecidableEq

/-- The resources built from a context when every GPU call succeeds. -/
def mkResources (ctx : GLContext) : CachedResources :=
  ⟨ctx.programHandle, ctx.positionBufferHandle, ctx.texCoordBufferHandle,
    ctx.positionLocation, ctx.texCoordLocation⟩

/-- The resource cache (the module-level WeakMap of shaderCache.ts keyed
by context identity) together with a count of shader-compilation episodes:
a call that reaches the compile-and-link step counts as one episode. -/
structure CacheState where
  entries : List (Nat × CachedResources)
  compileEvents : Nat
deriving DecidableEq

/-- Cache lookup by context identity. -/
def lookupResources (st : CacheState) (ctxId : Nat) : Option CachedResources :=
  st.entries.lookup ctxId

/-- Whether every GPU call getOrCreateResources makes on this context
succeeds: shader object creation, compilation of both shaders, program
creation, linking, and both buffer creations. -/
def ctxOk (ctx : GLContext) : Bool :=
  ctx.createVertexShaderOk && ctx.vertexCompileOk &&
    ctx.createFragmentShaderOk && ctx.fragmentCompileOk &&
    ctx.createProgramOk && ctx.linkOk &&
    ctx.createPositionBufferOk && ctx.createTexCoordBufferOk

/-- Embedding of getOrCreateResources in packages/react/src/shaderCache.ts:
a cache hit returns the stored record and leaves the cache untouched; a
miss compiles the fixed shader sources (one compilation episode) and, only
when every GPU call succeeds, builds the resources, stores them keyed by
the context identity and returns them.  On any failure nothing is cached
and null is returned. -/
def getOrCreateResources (ctx : GLContext) (st : CacheState) :
    Option CachedResources × CacheState :=
  match lookupResources st ctx.id with
  | some cached => (some cached, st)
  | none =>
    let st1 : CacheState := { st with compileEvents := st.compileEvents + 1 }
    if ctxOk ctx then
      let res := mkResources ctx
      (some res, { st1 with entries := (ctx.id, res) :: st1.entries })
    else (none, st1)

/-- Results and final state of n successive getOrCreateResources calls
against the same context (for example one call per mounting session). -/
def runCalls (ctx : GLContext) : Nat → CacheState → List (Option CachedResources) × CacheState
  | 0, st => ([], st)
  | n + 1, st =>
    let step := getOrCreateResources ctx st
    let rest := runCalls ctx n step.2
    (step.1 :: rest.1, rest.2)

/-- The native player state touched by the end-of-media notification
handler of StackedAlphaVideoView.swift: playhead position, whether the
player is playing, and the number of onEnd events dispatched. -/
structure PlayerState where
  position : Nat
  playing : Bool
  onEndCount : Nat
deriving DecidableEq

/-- Embedding of the AVPlayerItemDidPlayToEndTime observer registered in
setupVideo of StackedAlphaVideoView.swift: when shouldLoop is set the
player seeks to zero and resumes playing without dispatching onEnd;
otherwise the player pauses and onEnd is dispatched once. -/
def endOfMedia (shouldLoop : Bool) (s : PlayerState) : PlayerState :=
  if shouldLoop then { s with position := 0, playing := true }
  else { s with playing := false, onEndCount := s.onEndCount + 1 }

/-- n successive natural ends of media. -/
def endOfMediaIter (shouldLoop : Bool) : Nat → PlayerState → PlayerState
  | 0, s => s
  | n + 1, s => endOfMediaIter shouldLoop n (endOfMedia shouldLoop s)

/-- The web session state driven by the visibility controller of
packages/react/src/StackedAlphaVideo.tsx: whether the video element is
paused, whether the canvas is visible, the record of whether playback was
active before hiding, and whether a render callback (video frame callback
or animation frame) is scheduled. -/
structure VisState where
  videoPaused : Bool
  isVisible : Bool
  wasPlayingBeforeHidden : Bool
  renderLoopActive : Bool
deriving DecidableEq

/-- The play path of the web session: video.play() un-pauses the element,
and the resulting play event runs handlePlay, which starts the render
loop.  The component itself performs this call; the caller never has to
invoke play. -/
def playVideo (s : VisState) : VisState :=
  { s with videoPaused := false, renderLoopActive := true }

/-- Embedding of handleVisibilityChange in
packages/react/src/StackedAlphaVideo.tsx.  On hiding: when the video is
playing, remember that and pause it, otherwise remember that it was not;
in both cases stopRenderLoop cancels every pending render callback.  On
becoming visible: when playback was active before hiding and the video is
paused, play it (which restarts the render loop through the play
event). -/
def handleVisibilityChange (isVisible : Bool) (s : VisState) : VisState :=
  let s0 : VisState := { s with isVisible := isVisible }
  if isVisible then
    if s0.wasPlayingBeforeHidden && s0.videoPaused then playVideo s0 else s0
  else
    let s1 : VisState :=
      if !s0.videoPaused then
        { s0 with wasPlayingBeforeHidden := true, videoPaused := true }
      else { s0 with wasPlayingBeforeHidden := false }
    { s1 with renderLoopActive := false }

/-- The native texture-creation state of StackedAlphaVideoView.swift: the
consecutive-failure counter, the number of onError events emitted by
createTexture, and the cached last frame texture that draw presents. -/
structure TexState where
  consecutiveTextureFailures : Nat
  errorEvents : Nat
  lastTexture : Option Nat
deriving DecidableEq

/-- Embedding of createTexture in StackedAlphaVideoView.swift: on failure
the consecutive-failure counter is incremented, onError is emitted exactly
when the counter reaches 120, and nil is returned; on success the counter
resets to zero and the new texture is returned. -/
def createTexture (success : Bool) (newTex : Nat) (s : TexState) :
    Option Nat × TexState :=
  if success then
    (some newTex, { s with consecutiveTextureFailures := 0 })
  else
    let c := s.consecutiveTextureFailures + 1
    (none,
      { s with
        consecutiveTextureFailures := c,
        errorEvents :=
          if c = 120 then s.errorEvents + 1 else s.errorEvents })

/-- The texture portion of draw in StackedAlphaVideoView.swift: a newly
created texture replaces the cached lastTexture, while a failed creation
keeps the previously cached texture, which is what the draw call keeps
presenting. -/
def drawTextureStep (success : Bool) (newTex : Nat) (s : TexState) : TexState :=
  match createTexture success newTex s with
  | (some t, s1) => { s1 with lastTexture := some t }
  | (none, s1) => s1

/-- k successive draw ticks whose texture creation fails. -/
def failTicks : Nat → TexState → TexState
  | 0, s => s
  | k + 1, s => failTicks k (drawTextureStep false 0 s)

/-- The src prop of the Expo StackedAlphaVideo wrapper: absent
(undefined) or a string value.  A non-string truthy src is rejected by
the typeof test in the code; the model covers the cases the declared
TypeScript type admits. -/
inductive SrcProp
  | absent
  | strVal (s : String)
deriving DecidableEq

/-- The source prop of the Expo wrapper: absent or null, a require()
asset id whose Image.resolveAssetSource result carries a uri or fails, or
an object whose uri field holds a string or is missing. -/
inductive SourceProp
  | absent
  | nullVal
  | assetId (resolved : Option String)
  | uriObj (uri : Option String)
deriving DecidableEq

/-- The value computed by the source-resolution useMemo of the Expo
wrapper. -/
structure ResolvedSource where
  sourceUri : String
  isLocalAsset : Bool
  resolveError : Option String
deriving DecidableEq

/-- The source-prop part of the resolution in
packages/expo/src/StackedAlphaVideo.tsx: a missing or null source, a
local asset that fails to resolve or resolves without a truthy uri, and
an object without a truthy string uri each produce a descriptive error;
otherwise the uri is adopted. -/
def resolveFromSource : SourceProp → ResolvedSource
  | .absent =>
    ⟨"", false, some "No video source provided. Use either src or source prop."⟩
  | .nullVal =>
    ⟨"", false, some "No video source provided. Use either src or source prop."⟩
  | .assetId none =>
    ⟨"", true,
      some "Failed to resolve local asset. Check that the require() path is correct."⟩
  | .assetId (some uri) =>
    if uri = "" then
      ⟨"", true,
        some "Failed to resolve local asset. Check that the require() path is correct."⟩
    else ⟨uri, true, none⟩
  | .uriObj none =>
    ⟨"", false, some "Invalid source.uri: must be a non-empty string"⟩
  | .uriObj (some uri) =>
    if uri = "" then
      ⟨"", false, some "Invalid source.uri: must be a non-empty string"⟩
    else ⟨uri, false, none⟩

/-- Embedding of the source-resolution useMemo of the Expo wrapper: a
truthy src string is preferred (rejected with an error when it trims to
nothing), and a falsy src falls back to the source prop. -/
def resolveSource (src : SrcProp) (source : SourceProp) : ResolvedSource :=
  match src with
  | .strVal s =>
    if s ≠ "" then
      if s.trim = "" then
        ⟨"", false, some "Invalid src prop: must be a non-empty string URL"⟩
      else ⟨s, false, none⟩
    else resolveFromSource source
  | .absent => resolveFromSource source

/-- The props the Expo wrapper hands to the native view when it renders
one. -/
structure NativeProps where
  sourceUri : String
  isLocalAsset : Bool
  loop : Bool
  paused : Bool
  muted : Bool
deriving DecidableEq

/-- Embedding of the Expo wrapper component body
(packages/expo/src/StackedAlphaVideo.tsx): when source resolution failed
the component returns null and renders no native view; otherwise it
renders the native view with the resolved uri and the effective paused
state (paused or not autoPlay). -/
def expoComponentRender (src : SrcProp) (source : SourceProp)
    (loop autoPlay paused muted : Bool) : Option NativeProps :=
  let r := resolveSource src source
  match r.resolveError with
  | some _ => none
  | none => some ⟨r.sourceUri, r.isLocalAsset, loop, paused || !autoPlay, muted⟩

/-- The message the error-reporting effect of the Expo wrapper passes to
onError for a render (none when resolution succeeded). -/
def expoComponentError (src : SrcProp) (source : SourceProp) : Option String :=
  (resolveSource src source).resolveError

/-- A supplied non-empty string src prop. -/
def validSrc : SrcProp → Prop
  | .strVal s => s ≠ ""
  | .absent => False

/-- A resolvable source prop: a local asset resolving to a truthy uri or
an object carrying a truthy string uri. -/
def resolvableSource : SourceProp → Prop
  | .assetId (some uri) => uri ≠ ""
  | .uriObj (some uri) => uri ≠ ""
  | _ => False

/-- C1 counterexample: on a stacked frame whose top half is solid red
(255,0,0) and whose bottom half is solid gray 128, the WebGL fragment
shader at texture coordinate (0,0) outputs the straight pixel
(1, 0, 0, 128/255) rather than the premultiplied pixel
(128/255, 0, 0, 128/255) that the claim prescribes for every fragment
shader of the system. -/
theorem C1_counterexample :
    webglFragmentShader (stackedFrame 255 0 0 128) 0 0 ≠
      specShaderOutput (stackedFrame 255 0 0 128) 0 0 := by
  norm_num [webglFragmentShader, specShaderOutput, stackedFrame, Rgba.mk.injEq]

/-- C1 (amended): both fragment shaders sample color at (x, y*0.5) and
alpha as the red channel at (x, 0.5 + y*0.5).  The Metal shader outputs
the premultiplied pixel (color.rgb * alpha, alpha) exactly as the spec
states, and on a stacked frame with solid top color (r,g,b) and solid
bottom gray a it produces (r*a/255, g*a/255, b*a/255, a) in normalized
8-bit scale.  The WebGL shader instead outputs the straight pixel
(color.rgb, alpha); on the web the multiplication by alpha happens only in
the configured blend stage, which over the transparent clear color yields
premultiplied color but a squared alpha channel. -/
theorem C1_shader_semantics (tex : Texture) (x y : ℚ) (r g b a : ℕ)
    (hy0 : 0 ≤ y) (hy1 : y < 1) :
    webglFragmentShader tex x y =
      ⟨(tex x (y * (1/2))).r, (tex x (y * (1/2))).g, (tex x (y * (1/2))).b,
        (tex x (1/2 + y * (1/2))).r⟩ ∧
    metalFragmentShader tex x y = specShaderOutput tex x y ∧
    metalBlend (metalFragmentShader tex x y) clearColor =
      metalFragmentShader tex x y ∧
    webglBlend (webglFragmentShader tex x y) clearColor =
      ⟨(tex x (y * (1/2))).r * (tex x (1/2 + y * (1/2))).r,
        (tex x (y * (1/2))).g * (tex x (1/2 + y * (1/2))).r,
        (tex x (y * (1/2))).b * (tex x (1/2 + y * (1/2))).r,
        (tex x (1/2 + y * (1/2))).r * (tex x (1/2 + y * (1/2))).r⟩ ∧
    metalFragmentShader (stackedFrame r g b a) x y =
      ⟨(r : ℚ) * a / (255 * 255), (g : ℚ) * a / (255 * 255),
        (b : ℚ) * a / (255 * 255), (a : ℚ) / 255⟩ := by
  refine ⟨rfl, rfl, ?_, ?_, ?_⟩
  · simp only [metalBlend, metalFragmentShader, clearColor]
    rw [Rgba.mk.injEq]
    refine ⟨by ring, by ring, by ring, by ring⟩
  · simp only [webglBlend, webglFragmentShader, clearColor]
    rw [Rgba.mk.injEq]
    refine ⟨by ring, by ring, by ring, by ring⟩
  · have h1 : y * (1/2) < 1/2 := by linarith
    have h2 : ¬(1/2 + y * (1/2) < 1/2) := by
      have : 0 ≤ y * (1/2) := by positivity
      linarith
    simp only [metalFragmentShader, stackedFrame, if_pos h1, if_neg h2]
    rw [Rgba.mk.injEq]
    refine ⟨by ring, by ring, by ring, rfl⟩

/-- Witness for C1_shader_semantics at the concrete stacked frame with top
color (10,20,30) and bottom gray 40, evaluated at coordinate (0, 1/2). -/
theorem C1_shader_semantics_witness :
    (0 : ℚ) ≤ 1/2 ∧ (1/2 : ℚ) < 1 ∧
    metalFragmentShader (stackedFrame 10 20 30 40) 0 (1/2) =
      ⟨(10 : ℚ) * 40 / (255 * 255), (20 : ℚ) * 40 / (255 * 255),
        (30 : ℚ) * 40 / (255 * 255), (40 : ℚ) / 255⟩ :=
  ⟨by norm_num, by norm_num,
    (C1_shader_semantics (stackedFrame 10 20 30 40) 0 (1/2) 10 20 30 40
      (by norm_num) (by norm_num)).2.2.2.2⟩

/-- C2 counterexample: on the stacked frame with solid green top
(0,255,0) and solid gray 128 bottom, the Metal and WebGL fragment shaders
disagree at texture coordinate (1/2, 1/2): Metal outputs the premultiplied
green channel 128/255 while WebGL outputs the straight green channel 1, so
the two platform shaders are not bit-for-bit equivalent. -/
theorem C2_counterexample :
    metalFragmentShader (stackedFrame 0 255 0 128) (1/2) (1/2) ≠
      webglFragmentShader (stackedFrame 0 255 0 128) (1/2) (1/2) := by
  norm_num [metalFragmentShader, webglFragmentShader, stackedFrame,
    Rgba.mk.injEq]

/-- C2 (amended): the two platform fragment shaders sample identical
coordinates and agree exactly on the alpha channel, but their color
channels differ by the premultiplication factor: every Metal color channel
equals the corresponding WebGL color channel multiplied by the shared
sampled alpha.  They therefore coincide only where that factor is
immaterial (alpha = 1 or a zero color channel), not bit-for-bit. -/
theorem C2_cross_platform_relation (tex : Texture) (x y : ℚ) :
    (metalFragmentShader tex x y).a = (webglFragmentShader tex x y).a ∧
    (metalFragmentShader tex x y).r =
      (webglFragmentShader tex x y).r * (webglFragmentShader tex x y).a ∧
    (metalFragmentShader tex x y).g =
      (webglFragmentShader tex x y).g * (webglFragmentShader tex x y).a ∧
    (metalFragmentShader tex x y).b =
      (webglFragmentShader tex x y).b * (webglFragmentShader tex x y).a :=
  ⟨rfl, rfl, rfl, rfl⟩

/-- The allocation test is true exactly when no texture is initialized or
the recorded size differs from the incoming frame size. -/
theorem needsFullUpload_iff (s : RenderState) (w h : Nat) :
    needsFullUpload s w h = true ↔
      (s.textureInitialized = false ∨ s.lastTextureSize ≠ some (w, h)) := by
  rcases s with ⟨ini, _ | ⟨lw, lh⟩⟩
  · cases ini <;> simp [needsFullUpload]
  · cases ini
    · simp [needsFullUpload]
    · simp [needsFullUpload, Prod.ext_iff]
      tauto

/-- Case analysis of one renderFrame tick that reaches the upload: full
allocation recording the new size when the allocation test holds, and the
in-place path otherwise. -/
theorem renderFrame_upload_cases (readyState w h : Nat) (s : RenderState)
    (hready : 2 ≤ readyState) :
    (s.textureInitialized = false ∨ s.lastTextureSize ≠ some (w, h) →
      renderFrame false true readyState w h s =
        (UploadKind.texImage2D, ⟨true, some (w, h)⟩)) ∧
    (s.textureInitialized = true ∧ s.lastTextureSize = some (w, h) →
      renderFrame false true readyState w h s = (UploadKind.texSubImage2D, s)) := by
  have hnotlt : ¬readyState < 2 := Nat.not_lt.mpr hready
  constructor
  · intro hcond
    simp [renderFrame, hnotlt, (needsFullUpload_iff s w h).mpr hcond]
  · intro hcond
    have hno : ¬needsFullUpload s w h = true := by
      rw [needsFullUpload_iff s w h]
      push_neg
      exact ⟨by simp [hcond.1], hcond.2⟩
    simp [renderFrame, hnotlt, hno]

/-- C3 (confirmed): on a render tick that reaches the upload (context not
lost, canvas visible, decoder at HAVE_CURRENT_DATA), the upload is a full
texImage2D allocation recording the new dimensions exactly when no texture
has been uploaded yet or the frame dimensions differ from the last
recorded upload; otherwise it is the in-place texSubImage2D path leaving
the state unchanged.  Consequently the tick right after any upload tick
with the same frame dimensions never reallocates: it takes the in-place
path. -/
theorem C3_texture_upload (readyState w h : Nat) (s : RenderState)
    (hready : 2 ≤ readyState) :
    (s.textureInitialized = false ∨ s.lastTextureSize ≠ some (w, h) →
      renderFrame false true readyState w h s =
        (UploadKind.texImage2D, ⟨true, some (w, h)⟩)) ∧
    (s.textureInitialized = true ∧ s.lastTextureSize = some (w, h) →
      renderFrame false true readyState w h s = (UploadKind.texSubImage2D, s)) ∧
    renderFrame false true readyState w h
        (renderFrame false true readyState w h s).2 =
      (UploadKind.texSubImage2D, (renderFrame false true readyState w h s).2) := by
  have hnotlt : ¬readyState < 2 := Nat.not_lt.mpr hready
  refine ⟨(renderFrame_upload_cases readyState w h s hready).1,
    (renderFrame_upload_cases readyState w h s hready).2, ?_⟩
  by_cases hc : needsFullUpload s w h = true
  · have h1 : renderFrame false true readyState w h s =
        (UploadKind.texImage2D, ⟨true, some (w, h)⟩) := by
      simp [renderFrame, hnotlt, hc]
    have h2 : ¬needsFullUpload (⟨true, some (w, h)⟩ : RenderState) w h = true := by
      simp [needsFullUpload]
    rw [h1]
    simp [renderFrame, hnotlt, h2]
  · have h1 : renderFrame false true readyState w h s =
        (UploadKind.texSubImage2D, s) := by
      simp [renderFrame, hnotlt, hc]
    rw [h1]
    simp [renderFrame, hnotlt, hc]

/-- Witness for C3_texture_upload: a fresh session uploading a 640x960
frame allocates with texImage2D, and the immediately following tick with
the same dimensions takes the in-place texSubImage2D path. -/
theorem C3_texture_upload_witness :
    (2 ≤ 2) ∧
    ((false = false ∨ (none : Option (Nat × Nat)) ≠ some (640, 960)) ∧
      renderFrame false true 2 640 960 ⟨false, none⟩ =
        (UploadKind.texImage2D, ⟨true, some (640, 960)⟩)) ∧
    renderFrame false true 2 640 960
        (renderFrame false true 2 640 960 ⟨false, none⟩).2 =
      (UploadKind.texSubImage2D, (renderFrame false true 2 640 960 ⟨false, none⟩).2) :=
  ⟨Nat.le_refl 2,
    ⟨Or.inl rfl,
      (C3_texture_upload 2 640 960 ⟨false, none⟩ (Nat.le_refl 2)).1 (Or.inl rfl)⟩,
    (C3_texture_upload 2 640 960 ⟨false, none⟩ (Nat.le_refl 2)).2.2⟩

/-- C5 (confirmed): assigning the source locator a session already has is
a no-op on both platforms: the web src effect leaves the session
(including the decoder source, the load count and the texture upload
state) untouched, and the iOS setSourceUri guard returns without
rebuilding the player.  Assigning any locator leaves the texture upload
state untouched and triggers a decoder load exactly when the locator
differs from the current one, after which the decoder holds the assigned
locator. -/
theorem C5_idempotent_source (s : WebSession) (i : IosSession) (t : String)
    (u : String) :
    srcEffect s s.videoSrc = s ∧
    setSourceUri i i.sourceUri = i ∧
    (srcEffect s t).texState = s.texState ∧
    (srcEffect s t).loadCount =
      s.loadCount + (if t = s.videoSrc then 0 else 1) ∧
    (srcEffect s t).videoSrc = t ∧
    (u ≠ i.sourceUri → (setSourceUri i u).sourceUri = u) := by
  refine ⟨?_, ?_, ?_, ?_, ?_, ?_⟩
  · simp [srcEffect]
  · simp [setSourceUri]
  · by_cases h : s.videoSrc = t <;> simp [srcEffect, h]
  · by_cases h : s.videoSrc = t
    · simp [srcEffect, h]
    · simp [srcEffect, h, Ne.symm h]
  · by_cases h : s.videoSrc = t <;> simp [srcEffect, h]
  · intro hu
    by_cases he : u = ""
    · subst he
      simp [setSourceUri, hu]
    · simp [setSourceUri, hu, he]

/-- Witness for C5_idempotent_source at concrete sessions: reassigning the
same source is the identity and assigning a new source stores it. -/
theorem C5_idempotent_source_witness :
    srcEffect ⟨"a.mp4", 3, ⟨true, some (10, 20)⟩⟩ "a.mp4" =
      ⟨"a.mp4", 3, ⟨true, some (10, 20)⟩⟩ ∧
    ("b.mp4" ≠ "a.mp4") ∧
    (setSourceUri ⟨"a.mp4", 1⟩ "b.mp4").sourceUri = "b.mp4" :=
  ⟨(C5_idempotent_source ⟨"a.mp4", 3, ⟨true, some (10, 20)⟩⟩ ⟨"a.mp4", 1⟩
      "x" "y").1,
    by decide,
    (C5_idempotent_source ⟨"a.mp4", 3, ⟨true, some (10, 20)⟩⟩ ⟨"a.mp4", 1⟩
      "x" "b.mp4").2.2.2.2.2 (by decide)⟩

/-- A cache hit neither compiles nor changes the cache. -/
theorem getOrCreateResources_hit (ctx : GLContext) (st : CacheState)
    (r : CachedResources) (h : lookupResources st ctx.id = some r) :
    getOrCreateResources ctx st = (some r, st) := by
  simp [getOrCreateResources, h]

/-- Once the context has a cache entry, every further call returns that
entry and leaves the cache state unchanged. -/
theorem runCalls_hit (ctx : GLContext) (r : CachedResources) (n : Nat) :
    ∀ st : CacheState, lookupResources st ctx.id = some r →
      runCalls ctx n st = (List.replicate n (some r), st) := by
  induction n with
  | zero =>
    intro st _
    simp [runCalls]
  | succ m ih =>
    intro st h
    simp [runCalls, getOrCreateResources_hit ctx st r h, ih st h,
      List.replicate_succ]

/-- C4 (confirmed): for a context on which the GPU calls succeed, any
sequence of getOrCreateResources calls starting from a cache with no entry
for that context performs exactly one shader-compilation episode: the
first call compiles, links and caches the resources keyed by the context
identity, and every call of the sequence returns that same cached
resource record. -/
theorem C4_cache_single_compile (ctx : GLContext) (st : CacheState) (n : Nat)
    (hok : ctxOk ctx = true) (hmiss : lookupResources st ctx.id = none)
    (hn : 1 ≤ n) :
    (runCalls ctx n st).2.compileEvents = st.compileEvents + 1 ∧
    ∀ r ∈ (runCalls ctx n st).1, r = some (mkResources ctx) := by
  obtain ⟨m, rfl⟩ : ∃ m, n = m + 1 :=
    ⟨n - 1, (Nat.succ_pred_eq_of_pos hn).symm⟩
  have hstep : getOrCreateResources ctx st =
      (some (mkResources ctx),
        ⟨(ctx.id, mkResources ctx) :: st.entries, st.compileEvents + 1⟩) := by
    simp [getOrCreateResources, hmiss, hok]
  have hlook : lookupResources
      (⟨(ctx.id, mkResources ctx) :: st.entries, st.compileEvents + 1⟩ :
        CacheState) ctx.id = some (mkResources ctx) := by
    simp [lookupResources, List.lookup]
  have hrest := runCalls_hit ctx (mkResources ctx) m
    ⟨(ctx.id, mkResources ctx) :: st.entries, st.compileEvents + 1⟩ hlook
  constructor
  · simp [runCalls, hstep, hrest]
  · intro r hr
    simp [runCalls, hstep, hrest] at hr
    rcases hr with h | h
    · exact h
    · exact h.2

/-- Witness for C4_cache_single_compile: two sessions sharing one
all-succeeding context produce exactly one compilation episode. -/
theorem C4_cache_single_compile_witness :
    ctxOk ⟨1, true, true, true, true, true, true, true, true, 7, 8, 9, 0, 1⟩
        = true ∧
    lookupResources ⟨[], 0⟩ 1 = none ∧ 1 ≤ 2 ∧
    (runCalls ⟨1, true, true, true, true, true, true, true, true, 7, 8, 9, 0, 1⟩
        2 ⟨[], 0⟩).2.compileEvents = 0 + 1 :=
  ⟨rfl, rfl, Nat.le_of_lt (Nat.lt_succ_self 1),
    (C4_cache_single_compile
      ⟨1, true, true, true, true, true, true, true, true, 7, 8, 9, 0, 1⟩
      ⟨[], 0⟩ 2 rfl rfl (Nat.le_of_lt (Nat.lt_succ_self 1))).1⟩

/-- C6 counterexample: a web session whose texture was uploaded at
640x960 while playing a.mp4, after the source changes to b.mp4, still
takes the in-place texSubImage2D path on the next frame of equal
dimensions: the src effect does not reset the FrameTexture upload state,
so no full texImage2D reallocation happens. -/
theorem C6_counterexample :
    (renderFrame false true 2 640 960
        (srcEffect ⟨"a.mp4", 1, ⟨true, some (640, 960)⟩⟩ "b.mp4").texState).1 =
        UploadKind.texSubImage2D ∧
    (renderFrame false true 2 640 960
        (srcEffect ⟨"a.mp4", 1, ⟨true, some (640, 960)⟩⟩ "b.mp4").texState).1 ≠
        UploadKind.texImage2D := by
  constructor <;> decide

/-- C6 (amended): changing the source locator does not reset the
FrameTexture upload state.  After a source change the first upload
performs a full texImage2D allocation exactly when the frame dimensions
differ from those recorded before the change (or no upload had happened
yet); when the new video decodes at the same dimensions, the first upload
after the change takes the in-place texSubImage2D path. -/
theorem C6_source_change_upload (s : WebSession) (t : String) (w h : Nat)
    (readyState : Nat) (hready : 2 ≤ readyState) :
    (srcEffect s t).texState = s.texState ∧
    (s.texState.textureInitialized = true ∧
        s.texState.lastTextureSize = some (w, h) →
      renderFrame false true readyState w h (srcEffect s t).texState =
        (UploadKind.texSubImage2D, s.texState)) ∧
    (s.texState.textureInitialized = false ∨
        s.texState.lastTextureSize ≠ some (w, h) →
      renderFrame false true readyState w h (srcEffect s t).texState =
        (UploadKind.texImage2D, ⟨true, some (w, h)⟩)) := by
  have htex : (srcEffect s t).texState = s.texState := by
    by_cases h : s.videoSrc = t <;> simp [srcEffect, h]
  refine ⟨htex, ?_, ?_⟩
  · intro hcond
    rw [htex]
    exact (renderFrame_upload_cases readyState w h s.texState hready).2 hcond
  · intro hcond
    rw [htex]
    exact (renderFrame_upload_cases readyState w h s.texState hready).1 hcond

/-- Witness for C6_source_change_upload: after swapping a.mp4 for b.mp4 on
a session whose texture holds a 640x960 frame, the next equally-sized
upload is the in-place path. -/
theorem C6_source_change_upload_witness :
    (2 ≤ 2) ∧
    ((true = true ∧ (some (640, 960) : Option (Nat × Nat)) = some (640, 960)) ∧
      renderFrame false true 2 640 960
          (srcEffect ⟨"a.mp4", 1, ⟨true, some (640, 960)⟩⟩ "b.mp4").texState =
        (UploadKind.texSubImage2D, ⟨true, some (640, 960)⟩)) :=
  ⟨Nat.le_refl 2,
    ⟨⟨rfl, rfl⟩,
      (C6_source_change_upload ⟨"a.mp4", 1, ⟨true, some (640, 960)⟩⟩ "b.mp4"
        640 960 2 (Nat.le_refl 2)).2.1 ⟨rfl, rfl⟩⟩⟩

/-- Looping end handling never dispatches onEnd. -/
theorem endOfMediaIter_loop_count (n : Nat) :
    ∀ s : PlayerState, (endOfMediaIter true n s).onEndCount = s.onEndCount := by
  induction n with
  | zero => intro s; rfl
  | succ m ih =>
    intro s
    simp [endOfMediaIter, ih, endOfMedia]

/-- Non-loop end handling dispatches exactly one onEnd per end. -/
theorem endOfMediaIter_noloop_count (n : Nat) :
    ∀ s : PlayerState,
      (endOfMediaIter false n s).onEndCount = s.onEndCount + n := by
  induction n with
  | zero => intro s; rfl
  | succ m ih =>
    intro s
    simp [endOfMediaIter, ih, endOfMedia]
    omega

/-- After at least one looping end, the player sits at position zero and
is playing. -/
theorem endOfMediaIter_loop_state (n : Nat) :
    ∀ s : PlayerState, 1 ≤ n →
      (endOfMediaIter true n s).position = 0 ∧
      (endOfMediaIter true n s).playing = true := by
  induction n with
  | zero =>
    intro s h
    exact absurd h (by omega)
  | succ m ih =>
    intro s _
    cases Nat.eq_zero_or_pos m with
    | inl h0 =>
      subst h0
      simp [endOfMediaIter, endOfMedia]
    | inr hpos =>
      simpa [endOfMediaIter] using ih (endOfMedia true s) hpos

/-- After at least one non-looping end, the player is paused. -/
theorem endOfMediaIter_noloop_playing (n : Nat) :
    ∀ s : PlayerState, 1 ≤ n →
      (endOfMediaIter false n s).playing = false := by
  induction n with
  | zero =>
    intro s h
    exact absurd h (by omega)
  | succ m ih =>
    intro s _
    cases Nat.eq_zero_or_pos m with
    | inl h0 =>
      subst h0
      simp [endOfMediaIter, endOfMedia]
    | inr hpos =>
      simpa [endOfMediaIter] using ih (endOfMedia false s) hpos

/-- C7 (confirmed): across any positive number n of natural ends of
media, a looping session dispatches zero onEnd events and is left playing
from position zero, while a non-looping session pauses (no auto-resume)
and dispatches exactly one onEnd event per end of media, n in total. -/
theorem C7_end_of_media (s : PlayerState) (n : Nat) (hn : 1 ≤ n) :
    (endOfMediaIter true n s).onEndCount = s.onEndCount ∧
    (endOfMediaIter true n s).position = 0 ∧
    (endOfMediaIter true n s).playing = true ∧
    (endOfMediaIter false n s).onEndCount = s.onEndCount + n ∧
    (endOfMediaIter false n s).playing = false :=
  ⟨endOfMediaIter_loop_count n s, (endOfMediaIter_loop_state n s hn).1,
    (endOfMediaIter_loop_state n s hn).2, endOfMediaIter_noloop_count n s,
    endOfMediaIter_noloop_playing n s hn⟩

/-- Witness for C7_end_of_media: three full play-throughs of a looping
session dispatch zero onEnd events; without looping they dispatch
three. -/
theorem C7_end_of_media_witness :
    1 ≤ 3 ∧
    (endOfMediaIter true 3 ⟨17, true, 0⟩).onEndCount = 0 ∧
    (endOfMediaIter false 3 ⟨17, true, 0⟩).onEndCount = 0 + 3 :=
  ⟨by decide, (C7_end_of_media ⟨17, true, 0⟩ 3 (by decide)).1,
    (C7_end_of_media ⟨17, true, 0⟩ 3 (by decide)).2.2.2.1⟩

/-- C8 (confirmed): hiding a playing session pauses the decoder, records
that it was playing and cancels every pending render callback; the next
transition to visible resumes playback and rendering through the internal
play path, without the caller re-invoking play.  Hiding a session that
was already paused also cancels render callbacks, and the session stays
paused when it becomes visible again. -/
theorem C8_visibility (s : VisState) :
    (s.videoPaused = false →
      (handleVisibilityChange false s).videoPaused = true ∧
      (handleVisibilityChange false s).wasPlayingBeforeHidden = true ∧
      (handleVisibilityChange false s).renderLoopActive = false ∧
      (handleVisibilityChange true
          (handleVisibilityChange false s)).videoPaused = false ∧
      (handleVisibilityChange true
          (handleVisibilityChange false s)).renderLoopActive = true) ∧
    (s.videoPaused = true →
      (handleVisibilityChange false s).renderLoopActive = false ∧
      (handleVisibilityChange true
          (handleVisibilityChange false s)).videoPaused = true) := by
  constructor
  · intro h
    simp [handleVisibilityChange, playVideo, h]
  · intro h
    simp [handleVisibilityChange, playVideo, h]

/-- Witness for C8_visibility: a playing visible session, hidden and then
shown again, is playing with an active render loop, with no external play
call. -/
theorem C8_visibility_witness :
    ((⟨false, true, false, true⟩ : VisState).videoPaused = false) ∧
    (handleVisibilityChange true
        (handleVisibilityChange false ⟨false, true, false, true⟩)).videoPaused
      = false ∧
    (handleVisibilityChange true
        (handleVisibilityChange false
          ⟨false, true, false, true⟩)).renderLoopActive = true :=
  ⟨rfl, ((C8_visibility ⟨false, true, false, true⟩).1 rfl).2.2.2.1,
    ((C8_visibility ⟨false, true, false, true⟩).1 rfl).2.2.2.2⟩

/-- Error accounting of a failure run: starting from failure counter c, a
run of k failing ticks leaves the counter at c + k, keeps the cached
texture, and emits one onError exactly when the run crosses the threshold
of 120 consecutive failures. -/
theorem failTicks_spec (k : Nat) :
    ∀ s : TexState,
      (failTicks k s).consecutiveTextureFailures =
        s.consecutiveTextureFailures + k ∧
      (failTicks k s).lastTexture = s.lastTexture ∧
      (failTicks k s).errorEvents = s.errorEvents +
        (if s.consecutiveTextureFailures < 120 ∧
            120 ≤ s.consecutiveTextureFailures + k then 1 else 0) := by
  induction k with
  | zero =>
    intro s
    refine ⟨rfl, rfl, ?_⟩
    split_ifs with h
    · omega
    · rfl
  | succ m ih =>
    intro s
    have hstep : drawTextureStep false 0 s =
        { s with
          consecutiveTextureFailures := s.consecutiveTextureFailures + 1,
          errorEvents := if s.consecutiveTextureFailures + 1 = 120
            then s.errorEvents + 1 else s.errorEvents } := by
      simp [drawTextureStep, createTexture]
    have hiter : failTicks (m + 1) s = failTicks m (drawTextureStep false 0 s) :=
      rfl
    rw [hiter, hstep]
    obtain ⟨h1, h2, h3⟩ := ih
      { s with
        consecutiveTextureFailures := s.consecutiveTextureFailures + 1,
        errorEvents := if s.consecutiveTextureFailures + 1 = 120
          then s.errorEvents + 1 else s.errorEvents }
    refine ⟨?_, ?_, ?_⟩
    · rw [h1]
      simp
      omega
    · simpa using h2
    · rw [h3]
      simp only
      split_ifs <;> omega

/-- C9 (confirmed): starting from a zero failure streak, a run of k
failing texture creations keeps presenting the previously cached texture,
emits zero onError events while k stays below 120 and exactly one once
the streak reaches 120 (none further while it continues), records the
streak length in the counter, and a subsequent successful creation resets
the counter to zero and caches the new texture. -/
theorem C9_texture_failure_escalation (s : TexState) (k t : Nat)
    (h0 : s.consecutiveTextureFailures = 0) :
    (failTicks k s).lastTexture = s.lastTexture ∧
    (failTicks k s).errorEvents =
      s.errorEvents + (if 120 ≤ k then 1 else 0) ∧
    (failTicks k s).consecutiveTextureFailures = k ∧
    (drawTextureStep true t (failTicks k s)).consecutiveTextureFailures = 0 ∧
    (drawTextureStep true t (failTicks k s)).lastTexture = some t := by
  obtain ⟨h1, h2, h3⟩ := failTicks_spec k s
  rw [h0] at h1 h3
  refine ⟨h2, ?_, by simpa using h1, ?_, ?_⟩
  · rw [h3]
    simp
  · simp [drawTextureStep, createTexture]
  · simp [drawTextureStep, createTexture]

/-- Witness for C9_texture_failure_escalation: simulating failure on
every frame, exactly one onError fires at a streak of 120 and zero fire
at a streak of 119. -/
theorem C9_texture_failure_escalation_witness :
    ((⟨0, 0, some 5⟩ : TexState).consecutiveTextureFailures = 0) ∧
    (failTicks 120 ⟨0, 0, some 5⟩).errorEvents =
      0 + (if 120 ≤ 120 then 1 else 0) ∧
    (failTicks 119 ⟨0, 0, some 5⟩).errorEvents =
      0 + (if 120 ≤ 119 then 1 else 0) :=
  ⟨rfl, (C9_texture_failure_escalation ⟨0, 0, some 5⟩ 120 9 rfl).2.1,
    (C9_texture_failure_escalation ⟨0, 0, some 5⟩ 119 9 rfl).2.1⟩

/-- Every unresolvable source prop produces a nonempty diagnostic. -/
theorem resolveFromSource_error (sp : SourceProp)
    (h : ¬resolvableSource sp) :
    ∃ msg, (resolveFromSource sp).resolveError = some msg ∧ msg ≠ "" := by
  cases sp with
  | absent => exact ⟨_, rfl, by decide⟩
  | nullVal => exact ⟨_, rfl, by decide⟩
  | assetId r =>
    cases r with
    | none => exact ⟨_, rfl, by decide⟩
    | some uri =>
      have huri : uri = "" := by simpa [resolvableSource] using h
      subst huri
      exact
        ⟨"Failed to resolve local asset. Check that the require() path is correct.",
          by simp [resolveFromSource], by decide⟩
  | uriObj r =>
    cases r with
    | none => exact ⟨_, rfl, by decide⟩
    | some uri =>
      have huri : uri = "" := by simpa [resolvableSource] using h
      subst huri
      exact ⟨"Invalid source.uri: must be a non-empty string",
        by simp [resolveFromSource], by decide⟩

/-- With a falsy src prop the resolution falls back to the source
prop. -/
theorem resolveSource_falsy_src (src : SrcProp) (source : SourceProp)
    (h : ¬validSrc src) :
    resolveSource src source = resolveFromSource source := by
  cases src with
  | absent => rfl
  | strVal s =>
    have hs : s = "" := by simpa [validSrc] using h
    subst hs
    simp [resolveSource]

/-- C10 (confirmed): whenever neither a non-empty string src prop nor a
resolvable source prop is supplied, the Expo wrapper reports a nonempty
descriptive message through onError and renders no native view (the
component returns null), so no player setup or GPU work is attempted for
that configuration. -/
theorem C10_invalid_source (src : SrcProp) (source : SourceProp)
    (loop autoPlay paused muted : Bool)
    (hsrc : ¬validSrc src) (hsource : ¬resolvableSource source) :
    ∃ msg, expoComponentError src source = some msg ∧ msg ≠ "" ∧
      expoComponentRender src source loop autoPlay paused muted = none := by
  obtain ⟨msg, hmsg, hne⟩ := resolveFromSource_error source hsource
  refine ⟨msg, ?_, hne, ?_⟩
  · simp [expoComponentError, resolveSource_falsy_src src source hsrc, hmsg]
  · simp [expoComponentRender, resolveSource_falsy_src src source hsrc, hmsg]

/-- Witness for C10_invalid_source: a render with no src and a null
source reports an error message and renders no native view. -/
theorem C10_invalid_source_witness :
    ¬validSrc SrcProp.absent ∧ ¬resolvableSource SourceProp.nullVal ∧
    ∃ msg, expoComponentError SrcProp.absent SourceProp.nullVal = some msg ∧
      msg ≠ "" ∧
      expoComponentRender SrcProp.absent SourceProp.nullVal true true false
        true = none :=
  ⟨fun h => h, fun h => h,
    C10_invalid_source SrcProp.absent SourceProp.nullVal true true false true
      (fun h => h) (fun h => h)⟩

end Hypervideo
